import Mathlib

/-!
Shallow embedding of `ctest.py`, a command-line harness that builds a C file,
runs fixture tests from a directory against the produced executable, and then
runs a coverage tool.  The embedding models the test discovery, pairing and
verdict logic of `test` / `single_test`, the pattern matching done by the
compiled `test_file_regex`, the report ordering, and the phase sequencing of
`main`.

Modelling conventions:
* File contents are `String`s; the tests directory is a partial map
  `fs : String → Option String` from file name to contents (`none` = the file
  does not exist, so `open` raises `FileNotFoundError`).
* The program under test is a function `exec : String → ExecResult` from the
  contents of the fixture input file (streamed to stdin) to its exit code and
  captured, decoded stdout/stderr.
* Python exceptions that escape `test` are modelled with `Except TestError`.
-/

namespace Ctest

/-- `.strip(" \n")` strips these characters (line 156 of `ctest.py`). -/
def isStripChar (c : Char) : Bool := c == ' ' || c == '\n'

/-- Python `s.strip(" \n")`: remove every leading and trailing space or
newline character. -/
def pyStrip (s : String) : String :=
  ⟨((s.data.dropWhile isStripChar).reverse.dropWhile isStripChar).reverse⟩

/-- Python `str.replace("in", "out")` specialised to the fixed arguments of
line 119: scan left to right and replace every (non-overlapping) occurrence
of `"in"` by `"out"`. -/
def replaceInOut : List Char → List Char
  | [] => []
  | [c] => [c]
  | a :: b :: rest =>
    if a = 'i' ∧ b = 'n' then 'o' :: 'u' :: 't' :: replaceInOut rest
    else a :: replaceInOut (b :: rest)

/-- `file_name.replace("in", "out")` (line 119 of `ctest.py`). -/
def pyReplaceInOut (s : String) : String := ⟨replaceInOut s.data⟩

/-- Whether a character list contains the substring `"in"`. -/
def containsInToken : List Char → Bool
  | a :: b :: rest => (a == 'i' && b == 'n') || containsInToken (b :: rest)
  | _ => false

/-- Captured outcome of one run of the executable: `process.returncode`,
decoded `process.stdout` and `process.stderr`. -/
structure ExecResult where
  returncode : Int
  stdout : String
  stderr : String
deriving DecidableEq

/-- The tuple returned by `single_test` (line 163):
`(success, return_code, output, expected_output, error_output)`. -/
structure TestResult where
  success : Bool
  return_code : Int
  output : String
  expected_output : String
  error_output : String
deriving DecidableEq

deriving instance DecidableEq for Except

/-- Python exceptions that escape the test phase: `FileNotFoundError` from
`open`, and `KeyError` from `test_results[test_type]`. -/
inductive TestError where
  | fileNotFound (name : String)
  | keyError (key : String)
deriving DecidableEq

/-- `single_test` (lines 139–163 of `ctest.py`).  Opens the input file for
stdin (raising if missing), runs the executable, reads and strips the
expected-output file (raising if missing), and computes the verdict:
`success = False` when a positive test exits non-zero or a negative test
exits zero, otherwise `success = (output == expected_output)` where only
`expected_output` was stripped. -/
def single_test (exec : String → ExecResult) (test_type : String)
    (input_file output_file : String) (fs : String → Option String) :
    Except TestError TestResult :=
  match fs input_file with
  | none => .error (.fileNotFound input_file)
  | some input_data =>
    let process := exec input_data
    let output := process.stdout
    let error_output := process.stderr
    match fs output_file with
    | none => .error (.fileNotFound output_file)
    | some raw_expected =>
      let expected_output := pyStrip raw_expected
      let return_code := process.returncode
      let success :=
        if (test_type == "pos" && return_code != 0) ||
           (test_type == "neg" && return_code == 0) then false
        else output == expected_output
      .ok ⟨success, return_code, output, expected_output, error_output⟩

/-- A `pathlib.Path` value `tests_path / file_name` as appended to
`done_tests` (lines 124–125). -/
structure PyPath where
  dir : String
  name : String
deriving DecidableEq

/-- Python equality between the `str` value `file_name` and a `Path` element
of `done_tests` (line 111): `str.__eq__(Path)` and `Path.__eq__(str)` both
return `NotImplemented`, so `==` across the two types is always `False`. -/
def pyStrEqPath (_s : String) (_p : PyPath) : Bool := false

/-- Python `file_name in done_tests` (line 111): membership by `==` of a
`str` in a list of `Path` objects. -/
def pyMemStrPath (s : String) (l : List PyPath) : Bool := l.any (pyStrEqPath s)

/-- The mutable state of the loop in `test`: `done_tests` and the dict
`test_results` with exactly the keys `"pos"` and `"neg"` (lines 104–108). -/
structure TestState where
  done_tests : List PyPath
  pos_results : List (String × TestResult)
  neg_results : List (String × TestResult)
deriving DecidableEq

/-- `test_results[test_type].append([index, result])` (line 123): the dict
has exactly the keys `"pos"` and `"neg"`, any other key raises `KeyError`. -/
def appendResult (test_type : String) (entry : String × TestResult)
    (st : TestState) : Option TestState :=
  if test_type == "pos" then
    some { st with pos_results := st.pos_results ++ [entry] }
  else if test_type == "neg" then
    some { st with neg_results := st.neg_results ++ [entry] }
  else none

/-- The `for file in tests_path.iterdir()` loop of `test`
(lines 109–125 of `ctest.py`), processing the directory listing in order.
`matcher` is the compiled `test_file_regex`'s `search` returning the three
captured groups `(test_type, index, file_type)`. -/
def testLoop (matcher : String → Option (String × String × String))
    (exec : String → ExecResult) (fs : String → Option String)
    (tests_path : String) :
    List String → TestState → Except TestError TestState
  | [], st => .ok st
  | file_name :: rest, st =>
    if pyMemStrPath file_name st.done_tests then
      testLoop matcher exec fs tests_path rest st
    else
      match matcher file_name with
      | none => testLoop matcher exec fs tests_path rest st
      | some (test_type, index, file_type) =>
        if file_type == "in" then
          let input_file := file_name
          let output_file := pyReplaceInOut file_name
          match single_test exec test_type input_file output_file fs with
          | .error e => .error e
          | .ok result =>
            match appendResult test_type (index, result) st with
            | none => .error (.keyError test_type)
            | some st1 =>
              testLoop matcher exec fs tests_path rest
                { st1 with done_tests := st1.done_tests ++
                    [⟨tests_path, input_file⟩, ⟨tests_path, output_file⟩] }
        else
          testLoop matcher exec fs tests_path rest st

/-- Lexicographic strict comparison of character lists by code point: the
semantics of Python `str.__lt__` used by `sorted` (line 128). -/
def lexLt : List Char → List Char → Bool
  | [], [] => false
  | [], _ :: _ => true
  | _ :: _, [] => false
  | a :: as, b :: bs => decide (a < b) || (a == b && lexLt as bs)

/-- Non-strict lexicographic comparison of character lists. -/
def lexLe (a b : List Char) : Bool := lexLt a b || a == b

/-- The ordering used to display results: `sorted(..., key=lambda i: i[0])`
compares the index strings lexicographically. -/
def reportLe (a b : String × TestResult) : Prop :=
  lexLe a.1.data b.1.data = true

instance : DecidableRel reportLe := fun a b =>
  inferInstanceAs (Decidable (lexLe a.1.data b.1.data = true))

/-- `list(sorted(test_results[k], key=lambda i: i[0]))` (lines 128 and 133):
Python's stable ascending sort by the index string, modelled by stable
insertion sort with the same lexicographic key order. -/
def sortResults (rs : List (String × TestResult)) :
    List (String × TestResult) :=
  List.insertionSort reportLe rs

/-- `test` (lines 95–136 of `ctest.py`): run the loop over the directory
listing starting from empty state, then report the positive and negative
verdict lists in display order (each sorted by index).  An exception from
the loop propagates out of `test`. -/
def test (matcher : String → Option (String × String × String))
    (exec : String → ExecResult) (fs : String → Option String)
    (tests_path : String) (listing : List String) :
    Except TestError
      (List (String × TestResult) × List (String × TestResult)) :=
  match testLoop matcher exec fs tests_path listing ⟨[], [], []⟩ with
  | .error e => .error e
  | .ok st => .ok (sortResults st.pos_results, sortResults st.neg_results)

/-!
The configured fixture-name pattern.  The default is the regular expression
`(pos|neg)_([0-9]{2})_(in|out)\.txt` searched (not anchored) in the file
name, line 38 of `ctest.py`; the pattern is configuration
(`test_file_regex`), so variants differing in the kind alternation or in the
width of the sequence group are also modelled.  For these patterns the
alternations are first-character disjoint and the digit group cannot consume
the following `_`, so deterministic left-to-right matching coincides with
the backtracking regex semantics; `search` tries each start position from
the left.
-/

/-- Match a literal character list at the front, returning the remainder. -/
def dropLit : List Char → List Char → Option (List Char)
  | [], l => some l
  | _ :: _, [] => none
  | p :: ps, c :: cs => if c = p then dropLit ps cs else none

/-- The character class `[0-9]`. -/
def isDigitCh (c : Char) : Bool := decide ('0' ≤ c) && decide (c ≤ '9')

/-- The tail of the pattern after the sequence group: `(in|out)\.txt`,
returning the captured role group. -/
def matchRole : List Char → Option String
  | 'i' :: 'n' :: '.' :: 't' :: 'x' :: 't' :: _ => some "in"
  | 'o' :: 'u' :: 't' :: '.' :: 't' :: 'x' :: 't' :: _ => some "out"
  | _ => none

/-- `_([0-9]{2})_(in|out)\.txt`: the part of the default pattern after the
kind group, returning the sequence and role groups. -/
def matchAfterKind : List Char → Option (String × String)
  | '_' :: d1 :: d2 :: '_' :: rest =>
    if isDigitCh d1 && isDigitCh d2 then
      match matchRole rest with
      | some role => some (⟨[d1, d2]⟩, role)
      | none => none
    else none
  | _ => none

/-- Greedily take leading digits. -/
def takeDigits : List Char → List Char × List Char
  | [] => ([], [])
  | c :: rest =>
    if isDigitCh c then
      let (ds, r) := takeDigits rest
      (c :: ds, r)
    else ([], c :: rest)

/-- `_([0-9]+)_(in|out)\.txt`: variable-width sequence group, for a
configured pattern that does not fix the sequence width. -/
def matchAfterKindVar : List Char → Option (String × String)
  | '_' :: rest =>
    let (ds, rest1) := takeDigits rest
    if ds.isEmpty then none
    else
      match rest1 with
      | '_' :: rest2 =>
        match matchRole rest2 with
        | some role => some (⟨ds⟩, role)
        | none => none
      | _ => none
  | _ => none

/-- Try each alternative of the kind group in order at this position; on a
kind match, the rest of the pattern must match too. -/
def matchKindsAt (after : List Char → Option (String × String))
    (kinds : List String) (l : List Char) :
    Option (String × String × String) :=
  match kinds with
  | [] => none
  | k :: ks =>
    match dropLit k.data l with
    | some rest =>
      match after rest with
      | some (index, role) => some (k, index, role)
      | none => matchKindsAt after ks l
    | none => matchKindsAt after ks l

/-- `re.search` semantics: try to match the pattern at each start position
from the left, returning the groups of the leftmost match. -/
def searchFrom (after : List Char → Option (String × String))
    (kinds : List String) : List Char → Option (String × String × String)
  | [] => none
  | c :: rest =>
    match matchKindsAt after kinds (c :: rest) with
    | some groups => some groups
    | none => searchFrom after kinds rest

/-- The compiled default pattern `(pos|neg)_([0-9]{2})_(in|out)\.txt`
applied with `search` to a file name (lines 38 and 113 of `ctest.py`). -/
def default_matcher (name : String) : Option (String × String × String) :=
  searchFrom matchAfterKind ["pos", "neg"] name.data

/-- A configured pattern `(pos|neg|foo)_([0-9]{2})_(in|out)\.txt` whose kind
group can capture the unrecognized token `"foo"`. -/
def foo_matcher (name : String) : Option (String × String × String) :=
  searchFrom matchAfterKind ["pos", "neg", "foo"] name.data

/-- A configured pattern `(pos|neg)_([0-9]+)_(in|out)\.txt` with a
variable-width sequence group. -/
def var_matcher (name : String) : Option (String × String × String) :=
  searchFrom matchAfterKindVar ["pos", "neg"] name.data

/-- One fixture pair formed by the loop in `test`: kind and sequence from
the regex groups, the input file name, and the derived expected-output file
name of line 119. -/
structure FixturePair where
  kind : String
  sequence : String
  input_name : String
  output_name : String
deriving DecidableEq

/-- The loop of `test` (lines 109–125 of `ctest.py`) instrumented to also
record the `(test_type, index, input_file, output_file)` pair of each case
it completes, in discovery order.  This is exactly `testLoop` — the same
`done_tests` bookkeeping, the same `FileNotFoundError` from `single_test`
and `KeyError` from `test_results[test_type]`, either of which aborts the
loop, discarding everything — with a pair accumulator added
(`testLoopP_map_fst` below proves the two loops agree). -/
def testLoopP (matcher : String → Option (String × String × String))
    (exec : String → ExecResult) (fs : String → Option String)
    (tests_path : String) :
    List String → TestState → List FixturePair →
      Except TestError (TestState × List FixturePair)
  | [], st, acc => .ok (st, acc)
  | file_name :: rest, st, acc =>
    if pyMemStrPath file_name st.done_tests then
      testLoopP matcher exec fs tests_path rest st acc
    else
      match matcher file_name with
      | none => testLoopP matcher exec fs tests_path rest st acc
      | some (test_type, index, file_type) =>
        if file_type == "in" then
          let input_file := file_name
          let output_file := pyReplaceInOut file_name
          match single_test exec test_type input_file output_file fs with
          | .error e => .error e
          | .ok result =>
            match appendResult test_type (index, result) st with
            | none => .error (.keyError test_type)
            | some st1 =>
              testLoopP matcher exec fs tests_path rest
                { st1 with done_tests := st1.done_tests ++
                    [⟨tests_path, input_file⟩, ⟨tests_path, output_file⟩] }
                (acc ++ [⟨test_type, index, input_file, output_file⟩])
        else
          testLoopP matcher exec fs tests_path rest st acc

/-- The pairs the test phase runs over one directory listing: `.ok` with
the pairs in discovery order when the loop completes, `.error` when an
exception aborts it (in which case no later fixture is ever paired). -/
def runPairs (matcher : String → Option (String × String × String))
    (exec : String → ExecResult) (fs : String → Option String)
    (tests_path : String) (listing : List String) :
    Except TestError (List FixturePair) :=
  (testLoopP matcher exec fs tests_path listing ⟨[], [], []⟩ []).map Prod.snd

/-- Which phases of `main` (lines 199–223 of `ctest.py`) ran: whether
`build` was invoked and succeeded, and whether `test` and `coverage` were
invoked. -/
structure PhaseTrace where
  build_run : Bool
  build_ok : Bool
  tests_run : Bool
  coverage_run : Bool
deriving DecidableEq

/-- Phase sequencing of `main`: abort if the source file is missing; record
`run_tests = False` (with a warning) if the tests directory is missing;
invoke `build`; return if the build failed or `run_tests` is false;
otherwise run `test` and then `coverage`. -/
def mainPhases (source_exists tests_dir_exists build_succeeds : Bool) :
    PhaseTrace :=
  if !source_exists then ⟨false, false, false, false⟩
  else
    let run_tests := tests_dir_exists
    let build_ok := build_succeeds
    if !build_ok || !run_tests then ⟨true, build_ok, false, false⟩
    else ⟨true, build_ok, true, true⟩

/-! ### Helper lemmas -/

theorem pyMemStrPath_eq_false (s : String) (l : List PyPath) :
    pyMemStrPath s l = false := by
  simp [pyMemStrPath, pyStrEqPath]

theorem lexLt_trichotomy : ∀ x y : List Char,
    lexLt x y = true ∨ x = y ∨ lexLt y x = true := by
  intro x
  induction x with
  | nil =>
    intro y
    cases y with
    | nil => right; left; rfl
    | cons b bs => left; simp [lexLt]
  | cons a as ih =>
    intro y
    cases y with
    | nil => right; right; simp [lexLt]
    | cons b bs =>
      rcases lt_trichotomy a b with h | h | h
      · left; simp [lexLt, h]
      · subst h
        rcases ih bs with h2 | h2 | h2
        · left; simp [lexLt, h2]
        · right; left; rw [h2]
        · right; right; simp [lexLt, h2]
      · right; right; simp [lexLt, h]

theorem lexLt_trans : ∀ x y z : List Char,
    lexLt x y = true → lexLt y z = true → lexLt x z = true := by
  intro x
  induction x with
  | nil =>
    intro y z hxy hyz
    cases y with
    | nil => exact hyz
    | cons b bs =>
      cases z with
      | nil => simp [lexLt] at hyz
      | cons c cs => simp [lexLt]
  | cons a as ih =>
    intro y z hxy hyz
    cases y with
    | nil => simp [lexLt] at hxy
    | cons b bs =>
      cases z with
      | nil => simp [lexLt] at hyz
      | cons c cs =>
        simp only [lexLt, Bool.or_eq_true, Bool.and_eq_true, decide_eq_true_eq,
          beq_iff_eq] at hxy hyz ⊢
        rcases hxy with h1 | ⟨hab, h1⟩
        · rcases hyz with h2 | ⟨hbc, h2⟩
          · exact Or.inl (lt_trans h1 h2)
          · exact Or.inl (hbc ▸ h1)
        · subst hab
          rcases hyz with h2 | ⟨hbc, h2⟩
          · exact Or.inl h2
          · exact Or.inr ⟨hbc, ih bs cs h1 h2⟩

theorem lexLe_total (x y : List Char) : lexLe x y = true ∨ lexLe y x = true := by
  rcases lexLt_trichotomy x y with h | h | h
  · left; simp [lexLe, h]
  · left; simp [lexLe, h]
  · right; simp [lexLe, h]

theorem lexLe_trans (x y z : List Char) (h1 : lexLe x y = true)
    (h2 : lexLe y z = true) : lexLe x z = true := by
  simp only [lexLe, Bool.or_eq_true, beq_iff_eq] at h1 h2 ⊢
  rcases h1 with h1 | h1
  · rcases h2 with h2 | h2
    · exact Or.inl (lexLt_trans x y z h1 h2)
    · exact Or.inl (h2 ▸ h1)
  · subst h1
    exact h2

instance : IsTotal (String × TestResult) reportLe :=
  ⟨fun a b => lexLe_total a.1.data b.1.data⟩

instance : IsTrans (String × TestResult) reportLe :=
  ⟨fun a b c => lexLe_trans a.1.data b.1.data c.1.data⟩

theorem containsInToken_cons (c : Char) (l : List Char) (hc : c ≠ 'i') :
    containsInToken (c :: l) = containsInToken l := by
  cases l with
  | nil => simp [containsInToken]
  | cons b bs => simp [containsInToken, hc]

theorem replaceInOut_cons_head (b : Char) (rest : List Char) :
    ∃ h t, replaceInOut (b :: rest) = h :: t ∧ (h = 'o' ∨ h = b) := by
  cases rest with
  | nil => exact ⟨b, [], rfl, Or.inr rfl⟩
  | cons r1 rest' =>
    by_cases hbn : b = 'i' ∧ r1 = 'n'
    · refine ⟨'o', 'u' :: 't' :: replaceInOut rest', ?_, Or.inl rfl⟩
      obtain ⟨h1, h2⟩ := hbn
      subst h1; subst h2
      simp [replaceInOut]
    · exact ⟨b, replaceInOut (r1 :: rest'),
        by simp [replaceInOut, hbn], Or.inr rfl⟩

theorem replaceInOut_no_in : ∀ l : List Char,
    containsInToken (replaceInOut l) = false := by
  intro l
  induction l using replaceInOut.induct with
  | case1 => simp [replaceInOut, containsInToken]
  | case2 c => simp [replaceInOut, containsInToken]
  | case3 a b rest h ih =>
    obtain ⟨ha, hb⟩ := h
    subst ha; subst hb
    rw [show replaceInOut ('i' :: 'n' :: rest) =
        'o' :: 'u' :: 't' :: replaceInOut rest from by simp [replaceInOut]]
    rw [containsInToken_cons 'o' _ (by decide),
      containsInToken_cons 'u' _ (by decide),
      containsInToken_cons 't' _ (by decide)]
    exact ih
  | case4 a b rest h ih =>
    rw [show replaceInOut (a :: b :: rest) = a :: replaceInOut (b :: rest)
        from by simp [replaceInOut, h]]
    by_cases hai : a = 'i'
    · subst hai
      have hbn : b ≠ 'n' := fun hb => h ⟨rfl, hb⟩
      obtain ⟨hd, tl, heq, hho⟩ := replaceInOut_cons_head b rest
      rw [heq]
      have hhd : hd ≠ 'n' := by
        rcases hho with h1 | h1
        · subst h1; decide
        · subst h1; exact hbn
      rw [show containsInToken ('i' :: hd :: tl) = containsInToken (hd :: tl)
          from by simp [containsInToken, hhd]]
      rw [← heq]
      exact ih
    · rw [containsInToken_cons a _ hai]
      exact ih

/-- Evaluation of `single_test` when both fixture files exist. -/
theorem single_test_eq (exec : String → ExecResult) (test_type : String)
    (input_file output_file : String) (fs : String → Option String)
    (input_data raw_expected : String)
    (hin : fs input_file = some input_data)
    (hout : fs output_file = some raw_expected) :
    single_test exec test_type input_file output_file fs =
      .ok ⟨if (test_type == "pos" && (exec input_data).returncode != 0) ||
              (test_type == "neg" && (exec input_data).returncode == 0)
           then false
           else (exec input_data).stdout == pyStrip raw_expected,
           (exec input_data).returncode, (exec input_data).stdout,
           pyStrip raw_expected, (exec input_data).stderr⟩ := by
  unfold single_test
  rw [hin, hout]

/-- A file name on which the pattern does not match is skipped by the loop:
removing it from the listing, wherever it occurs, does not change the
outcome of the loop at all. -/
theorem testLoop_skip_nonmatching
    (matcher : String → Option (String × String × String))
    (exec : String → ExecResult) (fs : String → Option String)
    (tests_path : String) (f : String) (hm : matcher f = none) :
    ∀ (l1 l2 : List String) (st : TestState),
      testLoop matcher exec fs tests_path (l1 ++ f :: l2) st =
        testLoop matcher exec fs tests_path (l1 ++ l2) st := by
  intro l1
  induction l1 with
  | nil =>
    intro l2 st
    simp only [List.nil_append]
    rw [testLoop]
    rw [pyMemStrPath_eq_false, hm]
    rw [if_neg Bool.false_ne_true]
  | cons g l1' ih =>
    intro l2 st
    simp only [List.cons_append]
    rw [testLoop, testLoop]
    rw [pyMemStrPath_eq_false]
    rw [if_neg Bool.false_ne_true, if_neg Bool.false_ne_true]
    cases hg : matcher g with
    | none =>
      exact ih l2 st
    | some grp =>
      obtain ⟨t, i, role⟩ := grp
      dsimp only
      by_cases hrole : (role == "in") = true
      · rw [if_pos hrole, if_pos hrole]
        cases hst : single_test exec t g (pyReplaceInOut g) fs with
        | error e => rfl
        | ok result =>
          dsimp only
          cases happ : appendResult t (i, result) st with
          | none => rfl
          | some st1 =>
            dsimp only
            exact ih l2 _
      · rw [if_neg hrole, if_neg hrole]
        exact ih l2 st

/-- The instrumented loop is the loop of `test`: forgetting the collected
pairs gives back `testLoop` exactly, abort paths included. -/
theorem testLoopP_map_fst
    (matcher : String → Option (String × String × String))
    (exec : String → ExecResult) (fs : String → Option String)
    (tests_path : String) :
    ∀ (l : List String) (st : TestState) (acc : List FixturePair),
      (testLoopP matcher exec fs tests_path l st acc).map Prod.fst =
        testLoop matcher exec fs tests_path l st := by
  intro l
  induction l with
  | nil => intro st acc; rfl
  | cons g rest ih =>
    intro st acc
    rw [testLoopP, testLoop]
    rw [pyMemStrPath_eq_false]
    rw [if_neg Bool.false_ne_true, if_neg Bool.false_ne_true]
    cases hg : matcher g with
    | none => exact ih st acc
    | some grp =>
      obtain ⟨t, i, role⟩ := grp
      dsimp only
      by_cases hrole : (role == "in") = true
      · rw [if_pos hrole, if_pos hrole]
        cases hst : single_test exec t g (pyReplaceInOut g) fs with
        | error e => rfl
        | ok result =>
          dsimp only
          cases happ : appendResult t (i, result) st with
          | none => rfl
          | some st1 =>
            dsimp only
            exact ih _ _
      · rw [if_neg hrole, if_neg hrole]
        exact ih st acc

/-- If the loop completes over a listing that does not contain `f`, it adds
no pair with input file `f` to the accumulator. -/
theorem testLoopP_ok_countP_zero
    (matcher : String → Option (String × String × String))
    (exec : String → ExecResult) (fs : String → Option String)
    (tests_path f : String) :
    ∀ (l : List String) (st : TestState) (acc : List FixturePair)
      (out : TestState × List FixturePair), f ∉ l →
      testLoopP matcher exec fs tests_path l st acc = .ok out →
      out.2.countP (fun p => p.input_name == f) =
        acc.countP (fun p => p.input_name == f) := by
  intro l
  induction l with
  | nil =>
    intro st acc out _ hok
    rw [testLoopP] at hok
    cases hok
    rfl
  | cons g rest ih =>
    intro st acc out h hok
    have hgf : (g == f) = false := by
      simp only [beq_eq_false_iff_ne, ne_eq]
      intro e
      exact h (e ▸ List.mem_cons_self g rest)
    have hfr : f ∉ rest := fun hf => h (List.mem_cons_of_mem g hf)
    rw [testLoopP] at hok
    rw [pyMemStrPath_eq_false] at hok
    rw [if_neg Bool.false_ne_true] at hok
    cases hg : matcher g with
    | none =>
      rw [hg] at hok
      exact ih st acc out hfr hok
    | some grp =>
      obtain ⟨t, i, role⟩ := grp
      rw [hg] at hok
      dsimp only at hok
      by_cases hrole : (role == "in") = true
      · rw [if_pos hrole] at hok
        cases hst : single_test exec t g (pyReplaceInOut g) fs with
        | error e =>
          rw [hst] at hok
          simp at hok
        | ok result =>
          rw [hst] at hok
          dsimp only at hok
          cases happ : appendResult t (i, result) st with
          | none =>
            rw [happ] at hok
            simp at hok
          | some st1 =>
            rw [happ] at hok
            dsimp only at hok
            rw [ih _ _ out hfr hok]
            rw [List.countP_append]
            simp [hgf]
      · rw [if_neg hrole] at hok
        exact ih st acc out hfr hok

/-- If the loop completes over a duplicate-free listing containing the
input fixture `f`, it adds exactly one pair with input file `f`. -/
theorem testLoopP_ok_countP_one
    (matcher : String → Option (String × String × String))
    (exec : String → ExecResult) (fs : String → Option String)
    (tests_path f t i : String) (hm : matcher f = some (t, i, "in")) :
    ∀ (l : List String) (st : TestState) (acc : List FixturePair)
      (out : TestState × List FixturePair), l.Nodup → f ∈ l →
      testLoopP matcher exec fs tests_path l st acc = .ok out →
      out.2.countP (fun p => p.input_name == f) =
        acc.countP (fun p => p.input_name == f) + 1 := by
  intro l
  induction l with
  | nil => intro st acc out _ hmem; cases hmem
  | cons g rest ih =>
    intro st acc out hnd hmem hok
    rw [testLoopP] at hok
    rw [pyMemStrPath_eq_false] at hok
    rw [if_neg Bool.false_ne_true] at hok
    by_cases hgf : g = f
    · rw [hgf, hm] at hok
      have hfr : f ∉ rest := hgf ▸ (List.nodup_cons.mp hnd).1
      dsimp only at hok
      rw [if_pos (by rfl)] at hok
      cases hst : single_test exec t f (pyReplaceInOut f) fs with
      | error e =>
        rw [hst] at hok
        simp at hok
      | ok result =>
        rw [hst] at hok
        dsimp only at hok
        cases happ : appendResult t (i, result) st with
        | none =>
          rw [happ] at hok
          simp at hok
        | some st1 =>
          rw [happ] at hok
          dsimp only at hok
          rw [testLoopP_ok_countP_zero matcher exec fs tests_path f rest _ _
            out hfr hok]
          rw [List.countP_append]
          simp
    · have hfr : f ∈ rest := (List.mem_cons.mp hmem).resolve_left
        (fun e => hgf e.symm)
      have hnd' : rest.Nodup := (List.nodup_cons.mp hnd).2
      have hgfb : (g == f) = false := by
        simp only [beq_eq_false_iff_ne, ne_eq]
        exact hgf
      cases hg : matcher g with
      | none =>
        rw [hg] at hok
        exact ih st acc out hnd' hfr hok
      | some grp =>
        obtain ⟨t2, i2, role2⟩ := grp
        rw [hg] at hok
        dsimp only at hok
        by_cases hrole : (role2 == "in") = true
        · rw [if_pos hrole] at hok
          cases hst : single_test exec t2 g (pyReplaceInOut g) fs with
          | error e =>
            rw [hst] at hok
            simp at hok
          | ok result =>
            rw [hst] at hok
            dsimp only at hok
            cases happ : appendResult t2 (i2, result) st with
            | none =>
              rw [happ] at hok
              simp at hok
            | some st1 =>
              rw [happ] at hok
              dsimp only at hok
              rw [ih _ _ out hnd' hfr hok]
              rw [List.countP_append]
              simp [hgfb]
        · rw [if_neg hrole] at hok
          exact ih st acc out hnd' hfr hok

/-! ### Claim C1 -/

/-- C1 counterexample: a Negative fixture whose executable exits with code 1
is not a PASS unconditionally — with stdout `"x"` and expected file `"y"`
the verdict is `success = false`, because lines 158–162 fall through to the
output comparison for a negative test with non-zero exit code. -/
theorem neg_nonzero_not_pass_unconditionally :
    single_test (fun _ => ⟨1, "x", "e"⟩) "neg" "neg_01_in.txt"
      "neg_01_out.txt"
      (fun n => if n == "neg_01_in.txt" then some "bad" else
        if n == "neg_01_out.txt" then some "y" else none) =
      .ok ⟨false, 1, "x", "y", "e"⟩ := by
  decide

/-- C1 amended: for every Negative fixture whose executable exits with a
non-zero exit code, the verdict is PASS if and only if the raw captured
stdout equals the stripped expected output — the output comparison does
apply to negative cases. -/
theorem neg_nonzero_exit_compares_output
    (exec : String → ExecResult) (fs : String → Option String)
    (input_file output_file input_data raw_expected : String)
    (hin : fs input_file = some input_data)
    (hout : fs output_file = some raw_expected)
    (hrc : (exec input_data).returncode ≠ 0) :
    single_test exec "neg" input_file output_file fs =
      .ok ⟨(exec input_data).stdout == pyStrip raw_expected,
        (exec input_data).returncode, (exec input_data).stdout,
        pyStrip raw_expected, (exec input_data).stderr⟩ := by
  rw [single_test_eq exec "neg" input_file output_file fs input_data
    raw_expected hin hout]
  have hc : (("neg" == "pos" && (exec input_data).returncode != 0) ||
      ("neg" == "neg" && (exec input_data).returncode == 0)) = false := by
    simp [hrc]
  rw [hc, if_neg Bool.false_ne_true]

/-- C1 witness: the amended theorem applied to a concrete negative fixture
with exit code 1, stdout `"out text"` and expected file `" ok \n"`. -/
theorem neg_nonzero_exit_compares_output_witness :
    single_test (fun _ => ⟨1, "out text", "err"⟩) "neg" "i.txt" "o.txt"
      (fun n => if n == "i.txt" then some "d" else
        if n == "o.txt" then some " ok \n" else none) =
      .ok ⟨false, 1, "out text", "ok", "err"⟩ := by
  have h := neg_nonzero_exit_compares_output (fun _ => ⟨1, "out text", "err"⟩)
    (fun n => if n == "i.txt" then some "d" else
      if n == "o.txt" then some " ok \n" else none)
    "i.txt" "o.txt" "d" " ok \n" (by decide) (by decide) (by decide)
  rw [h]
  decide

/-! ### Claim C2 -/

/-- C2 counterexample: for a Positive fixture with exit code 0, stdout
`"7\n"` and expected file `"7"` differ only by a trailing newline, yet the
verdict is FAIL: line 156 strips only the expected output, the captured
stdout of line 153 is never stripped. -/
theorem trailing_newline_stdout_fails :
    single_test (fun _ => ⟨0, "7\n", ""⟩) "pos" "pos_01_in.txt"
      "pos_01_out.txt"
      (fun n => if n == "pos_01_in.txt" then some "3 4" else
        if n == "pos_01_out.txt" then some "7" else none) =
      .ok ⟨false, 0, "7\n", "7", ""⟩ := by
  decide

/-- C2 amended: for every Positive fixture with exit code 0, leading and
trailing space and newline characters are removed from the expected-output
text only; the captured stdout is compared verbatim, so the verdict is PASS
iff the raw stdout equals the stripped expected output (in particular any
internal — or stdout-side leading/trailing — whitespace difference fails). -/
theorem pos_zero_exit_only_expected_stripped
    (exec : String → ExecResult) (fs : String → Option String)
    (input_file output_file input_data raw_expected : String)
    (hin : fs input_file = some input_data)
    (hout : fs output_file = some raw_expected)
    (hrc : (exec input_data).returncode = 0) :
    single_test exec "pos" input_file output_file fs =
      .ok ⟨(exec input_data).stdout == pyStrip raw_expected,
        (exec input_data).returncode, (exec input_data).stdout,
        pyStrip raw_expected, (exec input_data).stderr⟩ := by
  rw [single_test_eq exec "pos" input_file output_file fs input_data
    raw_expected hin hout]
  have hc : (("pos" == "pos" && (exec input_data).returncode != 0) ||
      ("pos" == "neg" && (exec input_data).returncode == 0)) = false := by
    simp [hrc]
  rw [hc, if_neg Bool.false_ne_true]

/-- C2 witness: the amended theorem applied to a concrete positive fixture
with exit code 0, stdout `" 7"` and expected file `" 7 \n"`. -/
theorem pos_zero_exit_only_expected_stripped_witness :
    single_test (fun _ => ⟨0, " 7", ""⟩) "pos" "i.txt" "o.txt"
      (fun n => if n == "i.txt" then some "3 4" else
        if n == "o.txt" then some " 7 \n" else none) =
      .ok ⟨false, 0, " 7", "7", ""⟩ := by
  have h := pos_zero_exit_only_expected_stripped (fun _ => ⟨0, " 7", ""⟩)
    (fun n => if n == "i.txt" then some "3 4" else
      if n == "o.txt" then some " 7 \n" else none)
    "i.txt" "o.txt" "3 4" " 7 \n" (by decide) (by decide) (by decide)
  rw [h]
  decide

/-! ### Claim C3 -/

/-- C3 counterexample: `pos_01_in.txt` has no `pos_01_out.txt`, while the
`pos_02` pair is complete and would pass; the run does not record the
missing-file case as a failing verdict and does not continue — it aborts
with a file-not-found error before any fixture is recorded, and `pos_02`
is never reached. -/
theorem missing_expected_file_aborts_run_example :
    test default_matcher (fun _ => ⟨0, "", ""⟩)
      (fun n => if n == "pos_01_in.txt" then some "a" else
        if n == "pos_02_in.txt" then some "b" else
        if n == "pos_02_out.txt" then some "" else none)
      "func_tests" ["pos_01_in.txt", "pos_02_in.txt", "pos_02_out.txt"] =
      .error (.fileNotFound "pos_01_out.txt") := by
  decide

/-- C3 amended: for every Input fixture whose derived ExpectedOutput file
does not exist, `open` on the expected-output file raises an uncaught
file-not-found error which aborts the whole test phase: no verdict is
recorded and the remaining fixtures are not run. -/
theorem missing_expected_file_aborts_run
    (matcher : String → Option (String × String × String))
    (exec : String → ExecResult) (fs : String → Option String)
    (tests_path f : String) (rest : List String) (t i input_data : String)
    (hm : matcher f = some (t, i, "in"))
    (hin : fs f = some input_data)
    (hout : fs (pyReplaceInOut f) = none) :
    test matcher exec fs tests_path (f :: rest) =
      .error (.fileNotFound (pyReplaceInOut f)) := by
  unfold test
  rw [testLoop]
  rw [pyMemStrPath_eq_false, if_neg Bool.false_ne_true, hm]
  dsimp only
  rw [if_pos (by rfl)]
  have hs : single_test exec t f (pyReplaceInOut f) fs =
      .error (.fileNotFound (pyReplaceInOut f)) := by
    unfold single_test
    rw [hin]
    dsimp only
    rw [hout]
  rw [hs]

/-- C3 witness: the amended theorem applied to a listing headed by
`neg_03_in.txt` with no `neg_03_out.txt` in the directory. -/
theorem missing_expected_file_aborts_run_witness :
    test default_matcher (fun _ => ⟨1, "", ""⟩)
      (fun n => if n == "neg_03_in.txt" then some "bad" else
        if n == "pos_04_in.txt" then some "x" else
        if n == "pos_04_out.txt" then some "y" else none)
      "func_tests" ["neg_03_in.txt", "pos_04_in.txt", "pos_04_out.txt"] =
      .error (.fileNotFound "neg_03_out.txt") := by
  have h := missing_expected_file_aborts_run default_matcher
    (fun _ => ⟨1, "", ""⟩)
    (fun n => if n == "neg_03_in.txt" then some "bad" else
      if n == "pos_04_in.txt" then some "x" else
      if n == "pos_04_out.txt" then some "y" else none)
    "func_tests" "neg_03_in.txt" ["pos_04_in.txt", "pos_04_out.txt"]
    "neg" "03" "bad" (by decide) (by decide) (by decide)
  rw [h]
  decide

/-! ### Claim C4 -/

/-- C4: for every fixture pair whose files exist, a Positive kind with
non-zero exit code, or a Negative kind with exit code zero, yields
`success = false` regardless of the captured or expected output
(lines 158–160 of `ctest.py`). -/
theorem wrong_exit_code_fails
    (exec : String → ExecResult) (fs : String → Option String)
    (test_type input_file output_file input_data raw_expected : String)
    (hin : fs input_file = some input_data)
    (hout : fs output_file = some raw_expected)
    (h : (test_type = "pos" ∧ (exec input_data).returncode ≠ 0) ∨
         (test_type = "neg" ∧ (exec input_data).returncode = 0)) :
    single_test exec test_type input_file output_file fs =
      .ok ⟨false, (exec input_data).returncode, (exec input_data).stdout,
        pyStrip raw_expected, (exec input_data).stderr⟩ := by
  rw [single_test_eq exec test_type input_file output_file fs input_data
    raw_expected hin hout]
  have hc : ((test_type == "pos" && (exec input_data).returncode != 0) ||
      (test_type == "neg" && (exec input_data).returncode == 0)) = true := by
    rcases h with ⟨ht, hrc⟩ | ⟨ht, hrc⟩
    · subst ht; simp [hrc]
    · subst ht; simp [hrc]
  rw [hc, if_pos rfl]

/-- C4 witness: the theorem applied to a positive fixture exiting 2 and to a
negative fixture exiting 0; both fail even though stdout could match. -/
theorem wrong_exit_code_fails_witness :
    (single_test (fun _ => ⟨2, "x", "b"⟩) "pos" "i" "o"
      (fun n => if n == "i" then some "d" else
        if n == "o" then some "x" else none) =
      .ok ⟨false, 2, "x", "x", "b"⟩) ∧
    (single_test (fun _ => ⟨0, "x", "b"⟩) "neg" "i" "o"
      (fun n => if n == "i" then some "d" else
        if n == "o" then some "x" else none) =
      .ok ⟨false, 0, "x", "x", "b"⟩) := by
  constructor
  · have h := wrong_exit_code_fails (fun _ => ⟨2, "x", "b"⟩)
      (fun n => if n == "i" then some "d" else
        if n == "o" then some "x" else none)
      "pos" "i" "o" "d" "x" (by decide) (by decide)
      (Or.inl ⟨rfl, by decide⟩)
    rw [h]
    decide
  · have h := wrong_exit_code_fails (fun _ => ⟨0, "x", "b"⟩)
      (fun n => if n == "i" then some "d" else
        if n == "o" then some "x" else none)
      "neg" "i" "o" "d" "x" (by decide) (by decide)
      (Or.inr ⟨rfl, by decide⟩)
    rw [h]
    decide

/-! ### Claim C5 -/

/-- C5 counterexample: with a configured pattern whose kind group also
captures `"foo"`, a run whose listing contains no `foo` file completes
normally — nothing is reported at startup — while a run whose listing does
contain `foo_01_in.txt` executes the case and then aborts with a `KeyError`
raised at line 123 while iterating fixtures: the unrecognized token is a
per-file error, not a startup pattern-configuration error. -/
theorem unknown_kind_not_startup_error_example :
    (test foo_matcher (fun _ => ⟨0, "ok", ""⟩)
      (fun n => if n == "pos_01_in.txt" then some "inp" else
        if n == "pos_01_out.txt" then some "ok" else none)
      "func_tests" ["pos_01_in.txt", "pos_01_out.txt"] =
      .ok ([("01", ⟨true, 0, "ok", "ok", ""⟩)], [])) ∧
    (test foo_matcher (fun _ => ⟨0, "ok", ""⟩)
      (fun n => if n == "foo_01_in.txt" then some "inp" else
        if n == "foo_01_out.txt" then some "ok" else none)
      "func_tests" ["foo_01_in.txt", "foo_01_out.txt"] =
      .error (.keyError "foo")) := by
  exact ⟨by decide, by decide⟩

/-- C5 amended: a kind token other than `"pos"` and `"neg"` is not checked
at startup; when the iteration reaches an input fixture with such a kind
(and both fixture files exist, so the case itself executes), recording its
result raises a per-file key-lookup error carrying that token, which aborts
the test phase. -/
theorem unknown_kind_keyerror_during_iteration
    (matcher : String → Option (String × String × String))
    (exec : String → ExecResult) (fs : String → Option String)
    (tests_path f : String) (rest : List String)
    (t i input_data raw_expected : String)
    (hm : matcher f = some (t, i, "in"))
    (hpos : t ≠ "pos") (hneg : t ≠ "neg")
    (hin : fs f = some input_data)
    (hout : fs (pyReplaceInOut f) = some raw_expected) :
    test matcher exec fs tests_path (f :: rest) = .error (.keyError t) := by
  unfold test
  rw [testLoop]
  rw [pyMemStrPath_eq_false, if_neg Bool.false_ne_true, hm]
  dsimp only
  rw [if_pos (by rfl)]
  rw [single_test_eq exec t f (pyReplaceInOut f) fs input_data
    raw_expected hin hout]
  dsimp only
  have ha : ∀ (entry : String × TestResult) (st : TestState),
      appendResult t entry st = none := by
    intro entry st
    unfold appendResult
    rw [if_neg (by simp [hpos]), if_neg (by simp [hneg])]
  rw [ha]

/-- C5 witness: the amended theorem applied to the `foo` pattern and the
listing `[foo_01_in.txt]` with both fixture files present. -/
theorem unknown_kind_keyerror_during_iteration_witness :
    test foo_matcher (fun _ => ⟨0, "ok", ""⟩)
      (fun n => if n == "foo_01_in.txt" then some "inp" else
        if n == "foo_01_out.txt" then some "ok" else none)
      "func_tests" ["foo_01_in.txt"] = .error (.keyError "foo") := by
  have h := unknown_kind_keyerror_during_iteration foo_matcher
    (fun _ => ⟨0, "ok", ""⟩)
    (fun n => if n == "foo_01_in.txt" then some "inp" else
      if n == "foo_01_out.txt" then some "ok" else none)
    "func_tests" "foo_01_in.txt" [] "foo" "01" "inp" "ok"
    (by decide) (by decide) (by decide) (by decide) (by decide)
  exact h

/-! ### Claim C6 -/

/-- C6 counterexample: source file exists, tests directory does not, build
succeeds — `main` runs the build but does not attempt coverage, contrary to
the claim that the coverage phase is still attempted. -/
theorem missing_tests_dir_skips_coverage_example :
    (mainPhases true false true).build_run = true ∧
    (mainPhases true false true).build_ok = true ∧
    (mainPhases true false true).coverage_run = false := by
  decide

/-- C6 amended: when the tests directory does not exist but the source file
does, the build phase still runs, but `main` returns immediately after the
build (line 217), so both the test phase and the coverage phase are
skipped, whether or not the build succeeded. -/
theorem missing_tests_dir_builds_but_skips_coverage (b : Bool) :
    mainPhases true false b = ⟨true, b, false, false⟩ := by
  cases b <;> rfl

/-! ### Claim C7 -/

/-- C7: a file name on which the configured pattern does not match produces
no fixture and no error: deleting it from the directory listing, at any
position, leaves the result of the test phase unchanged. -/
theorem nonmatching_file_ignored
    (matcher : String → Option (String × String × String))
    (exec : String → ExecResult) (fs : String → Option String)
    (tests_path f : String) (hm : matcher f = none)
    (l1 l2 : List String) :
    test matcher exec fs tests_path (l1 ++ f :: l2) =
      test matcher exec fs tests_path (l1 ++ l2) := by
  unfold test
  rw [testLoop_skip_nonmatching matcher exec fs tests_path f hm l1 l2]

/-- C7 witness: `README.md` does not match the default pattern and removing
it from the listing leaves the run unchanged. -/
theorem nonmatching_file_ignored_witness :
    test default_matcher (fun _ => ⟨0, "", ""⟩) (fun _ => none) "func_tests"
      ["README.md", "notes.txt"] =
    test default_matcher (fun _ => ⟨0, "", ""⟩) (fun _ => none) "func_tests"
      ["notes.txt"] :=
  nonmatching_file_ignored default_matcher (fun _ => ⟨0, "", ""⟩)
    (fun _ => none) "func_tests" "README.md" (by decide) [] ["notes.txt"]

/-! ### Claim C8 -/

/-- C8 counterexample: with a configured pattern whose sequence group has
variable width, the fixtures with sequences `"10"` and `"2"` are reported
with `"10"` first — the string `"10"` sorts lexicographically before `"2"`
although numerically 2 < 10, so the report order is lexical, not numeric. -/
theorem report_order_lexical_example :
    test var_matcher (fun _ => ⟨0, "ok", ""⟩)
      (fun n => if n == "pos_10_in.txt" then some "a" else
        if n == "pos_10_out.txt" then some "ok" else
        if n == "pos_2_in.txt" then some "b" else
        if n == "pos_2_out.txt" then some "ok" else none)
      "func_tests"
      ["pos_10_in.txt", "pos_10_out.txt", "pos_2_in.txt", "pos_2_out.txt"] =
      .ok ([("10", ⟨true, 0, "ok", "ok", ""⟩),
        ("2", ⟨true, 0, "ok", "ok", ""⟩)], []) := by
  decide

/-- C8 amended: within each kind group the report is sorted by the sequence
token as a string, lexicographically (and is a permutation of the collected
verdicts); for the default pattern's fixed-width two-digit tokens this
coincides with numeric order — `"02"` is listed before `"10"` — but it is
lexical string order, not numeric order. -/
theorem report_sorted_lexicographically
    (rs : List (String × TestResult)) (x y : TestResult) :
    List.Sorted reportLe (sortResults rs) ∧
    (sortResults rs).Perm rs ∧
    sortResults [("10", x), ("02", y)] = [("02", y), ("10", x)] := by
  refine ⟨List.sorted_insertionSort reportLe rs,
    List.perm_insertionSort reportLe rs, ?_⟩
  simp only [sortResults, List.insertionSort, List.orderedInsert]
  have hne : ¬ reportLe ("10", x) ("02", y) := by
    show ¬ (lexLe "10".data "02".data = true)
    decide
  rw [if_neg hne]

/-! ### Claim C9 -/

/-- C9 counterexample: the claim fails for a directory listing in which an
earlier Input fixture is missing its ExpectedOutput file.  Here
`pos_02_in.txt` is an Input fixture whose derived ExpectedOutput
`pos_02_out.txt` exists, yet the pairing pass yields no pair for it — the
loop aborts with `FileNotFoundError` on `pos_01_out.txt` (line 155 of
`ctest.py`) before ever reaching `pos_02_in.txt`, so no set of pairs is
produced at all. -/
theorem pairing_aborted_by_earlier_missing_file :
    runPairs default_matcher (fun _ => ⟨0, "", ""⟩)
      (fun n => if n == "pos_01_in.txt" then some "a" else
        if n == "pos_02_in.txt" then some "b" else
        if n == "pos_02_out.txt" then some "ok" else none)
      "func_tests" ["pos_01_in.txt", "pos_02_in.txt", "pos_02_out.txt"] =
      .error (.fileNotFound "pos_01_out.txt") ∧
    ((fun n => if n == "pos_01_in.txt" then some "a" else
        if n == "pos_02_in.txt" then some "b" else
        if n == "pos_02_out.txt" then some "ok" else none)
      (pyReplaceInOut "pos_02_in.txt")).isSome = true :=
  ⟨by decide, by decide⟩

/-- C9 amended: over a duplicate-free directory listing, whenever the
pairing pass completes without aborting (no fixture raised a missing-file
or unknown-kind error), each Input fixture in the listing yields exactly
one pair; and the pass is deterministic, so two completed passes over the
same listing yield the same pairs.  When the pass aborts, later Input
fixtures — even with their ExpectedOutput files present — yield no pair. -/
theorem pairing_unique_when_run_completes
    (matcher : String → Option (String × String × String))
    (exec : String → ExecResult) (fs : String → Option String)
    (tests_path : String) (listing : List String) (f t i : String)
    (ps ps2 : List FixturePair)
    (hnd : listing.Nodup) (hmem : f ∈ listing)
    (hm : matcher f = some (t, i, "in"))
    (hrun : runPairs matcher exec fs tests_path listing = .ok ps)
    (hrun2 : runPairs matcher exec fs tests_path listing = .ok ps2) :
    ps.countP (fun p => p.input_name == f) = 1 ∧ ps = ps2 := by
  constructor
  · unfold runPairs at hrun
    cases hq : testLoopP matcher exec fs tests_path listing ⟨[], [], []⟩ []
      with
    | error e =>
      rw [hq] at hrun
      simp [Except.map] at hrun
    | ok out =>
      rw [hq] at hrun
      have hps : out.2 = ps := by
        simpa [Except.map] using hrun
      have h1 := testLoopP_ok_countP_one matcher exec fs tests_path f t i hm
        listing ⟨[], [], []⟩ [] out hnd hmem hq
      rw [hps] at h1
      simpa using h1
  · rw [hrun] at hrun2
    exact Except.ok.inj hrun2

/-- C9 witness: a completed run over `[pos_01_in.txt, pos_01_out.txt]`
yields exactly the one pair for `pos_01_in.txt`. -/
theorem pairing_unique_when_run_completes_witness :
    ([(⟨"pos", "01", "pos_01_in.txt", "pos_01_out.txt"⟩ : FixturePair)].countP
        (fun p => p.input_name == "pos_01_in.txt") = 1) ∧
    [(⟨"pos", "01", "pos_01_in.txt", "pos_01_out.txt"⟩ : FixturePair)] =
      [(⟨"pos", "01", "pos_01_in.txt", "pos_01_out.txt"⟩ : FixturePair)] :=
  pairing_unique_when_run_completes default_matcher (fun _ => ⟨0, "7", ""⟩)
    (fun n => if n == "pos_01_in.txt" then some "3 4" else
      if n == "pos_01_out.txt" then some "7" else none)
    "func_tests" ["pos_01_in.txt", "pos_01_out.txt"] "pos_01_in.txt"
    "pos" "01"
    [⟨"pos", "01", "pos_01_in.txt", "pos_01_out.txt"⟩]
    [⟨"pos", "01", "pos_01_in.txt", "pos_01_out.txt"⟩]
    (by decide) (by decide) (by decide) (by decide) (by decide)

/-! ### Claim C10 -/

/-- C10: the expected-output sibling name is derived by replacing every
occurrence of `"in"` in the input file name with `"out"`, not only the role
token: the derived name never contains `"in"` any more; the concrete input
fixture `main_pos_01_in.txt` (which matches the default pattern) gets the
sibling name `maout_pos_01_out.txt`, differing also in the prefix; and the
harness then looks up exactly that name — a directory containing only the
role-substituted sibling `main_pos_01_out.txt` yields a file-not-found error
for `maout_pos_01_out.txt`. -/
theorem derived_output_name_replaces_all_in :
    (∀ l : List Char, containsInToken (replaceInOut l) = false) ∧
    pyReplaceInOut "main_pos_01_in.txt" = "maout_pos_01_out.txt" ∧
    default_matcher "main_pos_01_in.txt" = some ("pos", "01", "in") ∧
    test default_matcher (fun _ => ⟨0, "", ""⟩)
      (fun n => if n == "main_pos_01_in.txt" then some "inp" else
        if n == "main_pos_01_out.txt" then some "sibling" else none)
      "func_tests" ["main_pos_01_in.txt"] =
      .error (.fileNotFound "maout_pos_01_out.txt") :=
  ⟨replaceInOut_no_in, by decide, by decide, by decide⟩

end Ctest
